import Mathlib

/-!
Verification of the score-to-level classification, aggregation, geometry
projection and summary pipeline of the Kentucky county hazard-map script
(src/app.py), shallowly embedded in Lean. Python floats are modelled as
exact rationals; a pandas NaN result is modelled as `none`.
-/

set_option autoImplicit false

namespace StopLight

/-- The six hazard dimensions, as (display label, column key) pairs
(HAZARDS in src/app.py). -/
def HAZARDS : List (String × String) :=
  [("Flooding", "flood"),
   ("Winter Weather", "winter"),
   ("Wind", "wind"),
   ("Severe Weather", "severe"),
   ("Extreme Temperature", "extreme_temp"),
   ("Other", "other")]

/-- overall_score_to_level from src/app.py: the 4-level stoplight
classifier with cut points 0.25, 0.5, 0.75. -/
def overall_score_to_level (score : ℚ) : String :=
  if score < 1/4 then "Very Low (White)"
  else if score < 1/2 then "Low (Green)"
  else if score < 3/4 then "Elevated (Yellow)"
  else "High (Red)"

/-- OVERALL_LEVELS_ORDER from src/app.py. -/
def OVERALL_LEVELS_ORDER : List String :=
  ["Very Low (White)", "Low (Green)", "Elevated (Yellow)", "High (Red)"]

/-- OVERALL_COLOR_MAP from src/app.py, as an association list. -/
def OVERALL_COLOR_MAP : List (String × List ℕ) :=
  [("Very Low (White)", [255, 255, 255]),
   ("Low (Green)", [0, 128, 0]),
   ("Elevated (Yellow)", [255, 255, 0]),
   ("High (Red)", [255, 0, 0])]

/-- hazard_score_to_level from src/app.py: the 3-level classifier with cut
points 1/3 and 2/3. -/
def hazard_score_to_level (score : ℚ) : String :=
  if score < 1/3 then "Low"
  else if score < 2/3 then "Medium"
  else "High"

/-- HAZARD_LEVELS_ORDER from src/app.py. -/
def HAZARD_LEVELS_ORDER : List String := ["Low", "Medium", "High"]

/-- HAZARD_COLOR_MAPS from src/app.py: per hazard key, a level-to-RGB
association list. -/
def HAZARD_COLOR_MAPS : List (String × List (String × List ℕ)) :=
  [("flood", [("Low", [198, 239, 206]), ("Medium", [120, 200, 140]), ("High", [0, 100, 0])]),
   ("winter", [("Low", [198, 219, 239]), ("Medium", [91, 155, 213]), ("High", [0, 70, 140])]),
   ("wind", [("Low", [221, 214, 235]), ("Medium", [165, 105, 189]), ("High", [88, 24, 69])]),
   ("severe", [("Low", [252, 199, 191]), ("Medium", [244, 96, 96]), ("High", [153, 0, 0])]),
   ("extreme_temp", [("Low", [0, 112, 192]), ("Medium", [255, 192, 0]), ("High", [237, 125, 49])]),
   ("other", [("Low", [230, 230, 230]), ("Medium", [160, 160, 160]), ("High", [90, 90, 90])])]

/-- The cut points of the stoplight classifier, read off the comparisons in
overall_score_to_level. -/
def OVERALL_THRESHOLDS : List ℚ := [1/4, 1/2, 3/4]

/-- The cut points of the 3-level classifier, read off the comparisons in
hazard_score_to_level. -/
def HAZARD_THRESHOLDS : List ℚ := [1/3, 2/3]

/-- Geometry of one loaded region row. A polygon carries its exterior ring
and its interior rings (holes); a ring is a closed coordinate sequence that
repeats its first vertex at the end, as shapely coordinate sequences do. -/
inductive Geometry where
  | polygon (exterior : List (ℚ × ℚ)) (interiors : List (List (ℚ × ℚ)))
  | multiPolygon (polys : List (List (ℚ × ℚ) × List (List (ℚ × ℚ))))
  | point (p : ℚ × ℚ)
  | lineString (pts : List (ℚ × ℚ))
deriving DecidableEq

/-- geometry_to_coordinates from src/app.py: a Polygon yields its exterior
ring only, a MultiPolygon one exterior ring per part, and any other
geometry type the empty list. -/
def geometry_to_coordinates : Geometry → List (List (ℚ × ℚ))
  | Geometry.polygon exterior _ => [exterior]
  | Geometry.multiPolygon polys => polys.map (fun poly => poly.1)
  | Geometry.point _ => []
  | Geometry.lineString _ => []

/-- The pandas mean over a sequence with no NaN entries: the arithmetic
mean of the values, and NaN (modelled as none) when there are no values.
Embeds the mean(axis=1) call on the score columns and the .mean() calls on
the centroid coordinate series in src/app.py. -/
def seriesMean (xs : List ℚ) : Option ℚ :=
  if xs.isEmpty then none else some (xs.sum / xs.length)

/-- The global numpy RNG state: the seed set by np.random.seed together
with the number of samples drawn since. The generator itself is external
library code, modelled as an arbitrary deterministic function of the seed
and the draw index. -/
structure RngState where
  seed : ℕ
  counter : ℕ
deriving DecidableEq

/-- np.random.seed: resets the global RNG state, discarding the previous
state entirely. -/
def np_random_seed (n : ℕ) (_s : RngState) : RngState := ⟨n, 0⟩

/-- np.random.rand(k) on the modelled global state: k samples obtained by
applying the generator to the current seed and the running draw index. -/
def np_random_rand (gen : ℕ → ℕ → ℚ) (k : ℕ) (s : RngState) : List ℚ × RngState :=
  ((List.range k).map (fun i => gen s.seed (s.counter + i)), ⟨s.seed, s.counter + k⟩)

/-- The score-generation loop of src/app.py: one np.random.rand(n) column
per hazard, drawn in HAZARDS order, threading the global RNG state. -/
def drawScoreColumns (gen : ℕ → ℕ → ℚ) (n : ℕ) :
    List (String × String) → RngState → List (String × List ℚ) × RngState
  | [], s => ([], s)
  | (_label, key) :: rest, s =>
    let u := np_random_rand gen n s
    let v := drawScoreColumns gen n rest u.2
    ((key, u.1) :: v.1, v.2)

/-- One input region row: county name and geometry, as supplied by the
loaded county table. -/
structure Region where
  name : String
  geom : Geometry
deriving DecidableEq

/-- One fully derived county row: the columns src/app.py adds to the county
table. Color lookups are Options because a pandas map leaves keys that are
missing from the dict as NaN. -/
structure RegionOutput where
  name : String
  hazard_scores : List (String × ℚ)
  hazard_levels : List (String × String)
  hazard_colors : List (String × Option (List ℕ))
  overall_score : ℚ
  overall_level : String
  overall_color : Option (List ℕ)
  coordinates : List (List (ℚ × ℚ))
deriving DecidableEq

/-- Derives all score, level, color and coordinate columns for one region
at row index i from the drawn score columns (src/app.py lines 150-177).
The overall score is the row mean of the six hazard scores; since the
hazard list is never empty the mean is written directly as sum over
length. -/
def buildRegion (r : Region) (cols : List (String × List ℚ)) (i : ℕ) : RegionOutput :=
  let hs := cols.map (fun c => (c.1, c.2.getD i 0))
  let hl := hs.map (fun p => (p.1, hazard_score_to_level p.2))
  let hc := hl.map (fun p => (p.1, (HAZARD_COLOR_MAPS.lookup p.1).bind (fun m => m.lookup p.2)))
  let scores := hs.map (fun p => p.2)
  let os := scores.sum / scores.length
  let ol := overall_score_to_level os
  ⟨r.name, hs, hl, hc, os, ol, OVERALL_COLOR_MAP.lookup ol, geometry_to_coordinates r.geom⟩

/-- The whole derivation pass of src/app.py lines 147-177: seed the global
RNG with 42, draw one score column per hazard, then derive every column of
every region row. -/
def runPipeline (gen : ℕ → ℕ → ℚ) (regions : List Region) (s : RngState) :
    List RegionOutput × RngState :=
  let s0 := np_random_seed 42 s
  let dc := drawScoreColumns gen regions.length HAZARDS s0
  (regions.enum.map (fun p => buildRegion p.2 dc.1 p.1), dc.2)

/-- pandas value_counts on a column of level labels: each distinct value
with its number of occurrences. The sort order of value_counts is
irrelevant downstream because reindex looks entries up by label. -/
def value_counts (xs : List String) : List (String × ℕ) :=
  xs.dedup.map (fun v => (v, xs.count v))

/-- reindex(order) followed by fillna(0).astype(int) on a value_counts
result: one count per requested label in that order, labels absent from the
counts becoming 0. -/
def reindex_fillna0 (vc : List (String × ℕ)) (order : List String) : List ℕ :=
  order.map (fun l => (vc.lookup l).getD 0)

/-- plot_level_counts from src/app.py (the series it hands to
st.bar_chart): value_counts, reindexed to the fixed label order, NaN filled
with 0 and cast to int. -/
def plot_level_counts (xs : List String) (order : List String) : List ℕ :=
  reindex_fillna0 (value_counts xs) order

/-- The consecutive-vertex edge list of a closed ring. -/
def ringEdges (ring : List (ℚ × ℚ)) : List ((ℚ × ℚ) × (ℚ × ℚ)) :=
  ring.zip (ring.drop 1)

/-- Twice the signed area of the polygon bounded by a closed ring (the
shoelace sum). -/
def ringArea2 (ring : List (ℚ × ℚ)) : ℚ :=
  ((ringEdges ring).map (fun e => e.1.1 * e.2.2 - e.2.1 * e.1.2)).sum

/-- The geometric (area-weighted) centroid of the polygon bounded by a
closed hole-free ring: the semantics of the shapely centroid attribute
behind the geometry.centroid call in src/app.py. -/
def polygonCentroid (ring : List (ℚ × ℚ)) : ℚ × ℚ :=
  let a2 := ringArea2 ring
  (((ringEdges ring).map (fun e => (e.1.1 + e.2.1) * (e.1.1 * e.2.2 - e.2.1 * e.1.2))).sum
      / (3 * a2),
   ((ringEdges ring).map (fun e => (e.1.2 + e.2.2) * (e.1.1 * e.2.2 - e.2.1 * e.1.2))).sum
      / (3 * a2))

/-- center_lon from src/app.py: the mean of the x coordinates of the
per-row polygon centroids, each row being one exterior ring after the
explode call (NaN, i.e. none, for an empty table). -/
def center_lon (rows : List (List (ℚ × ℚ))) : Option ℚ :=
  seriesMean (rows.map (fun r => (polygonCentroid r).1))

/-- center_lat from src/app.py: the mean of the y coordinates of the
per-row polygon centroids. -/
def center_lat (rows : List (List (ℚ × ℚ))) : Option ℚ :=
  seriesMean (rows.map (fun r => (polygonCentroid r).2))

/-- Modelled from the spec: the region centroid the spec describes, the
plain arithmetic mean of the vertices of the exterior ring. -/
def spec_vertex_mean_centroid (ring : List (ℚ × ℚ)) : ℚ × ℚ :=
  ((ring.map (fun p => p.1)).sum / ring.length,
   (ring.map (fun p => p.2)).sum / ring.length)

/-- Modelled from the spec: the anchor longitude computed from vertex-mean
centroids, as the spec describes the view anchor. -/
def spec_center_lon (rows : List (List (ℚ × ℚ))) : Option ℚ :=
  seriesMean (rows.map (fun r => (spec_vertex_mean_centroid r).1))

/-- Modelled from the spec: the anchor latitude computed from vertex-mean
centroids. -/
def spec_center_lat (rows : List (List (ℚ × ℚ))) : Option ℚ :=
  seriesMean (rows.map (fun r => (spec_vertex_mean_centroid r).2))

/-- A constant stand-in generator used to instantiate pipeline theorems at
concrete inputs. -/
def genZero : ℕ → ℕ → ℚ := fun _ _ => 0

/-- A one-region demo input. -/
def demoRegion : Region :=
  ⟨"Adair", Geometry.polygon [(0, 0), (1, 0), (1, 1), (0, 0)] []⟩

/-- The single derived row of a demo pipeline run on demoRegion. -/
def demoOutput : RegionOutput :=
  buildRegion demoRegion (drawScoreColumns genZero 1 HAZARDS (np_random_seed 42 ⟨0, 0⟩)).1 0

/-- The concrete ring used to compare the two centroid notions. -/
def demoRing : List (ℚ × ℚ) := [(0, 0), (4, 0), (4, 4), (0, 1), (0, 0)]

/-- The stoplight classifier always returns one of the four configured
labels. -/
lemma overall_level_mem (s : ℚ) : overall_score_to_level s ∈ OVERALL_LEVELS_ORDER := by
  unfold overall_score_to_level OVERALL_LEVELS_ORDER
  split_ifs <;> simp

/-- The 3-level classifier always returns one of the three configured
labels. -/
lemma hazard_level_mem (s : ℚ) : hazard_score_to_level s ∈ HAZARD_LEVELS_ORDER := by
  unfold hazard_score_to_level HAZARD_LEVELS_ORDER
  split_ifs <;> simp

/-- On a non-empty sequence the pandas mean is the arithmetic mean. -/
lemma seriesMean_ne_nil (xs : List ℚ) (h : xs ≠ []) :
    seriesMean xs = some (xs.sum / xs.length) := by
  unfold seriesMean
  rw [if_neg (by simpa using h)]

/-- Looking a label up in a tagged count list finds the count exactly when
the label is among the tags. -/
lemma lookup_map_counts (xs : List String) (l : String) (vs : List String) :
    (vs.map (fun v => (v, xs.count v))).lookup l
      = if l ∈ vs then some (xs.count l) else none := by
  induction vs with
  | nil => rfl
  | cons v vs ih =>
    rcases eq_or_ne l v with hv | hv
    · subst hv
      simp [List.lookup]
    · have hb : (l == v) = false := beq_eq_false_iff_ne.mpr hv
      simp [List.lookup, hb, ih, hv]

/-- The reindexed value_counts entry for a label is its number of
occurrences, 0 when the label never occurs. -/
lemma lookup_value_counts (xs : List String) (l : String) :
    ((value_counts xs).lookup l).getD 0 = xs.count l := by
  unfold value_counts
  rw [lookup_map_counts]
  by_cases h : l ∈ xs.dedup
  · simp [h]
  · have hx : l ∉ xs := fun hc => h (List.mem_dedup.mpr hc)
    simp [h, List.count_eq_zero.mpr hx]

/-- The score-generation loop produces one column per hazard. -/
lemma drawScoreColumns_length (gen : ℕ → ℕ → ℚ) (n : ℕ) (hz : List (String × String))
    (s : RngState) : ((drawScoreColumns gen n hz s).1).length = hz.length := by
  induction hz generalizing s with
  | nil => rfl
  | cons h t ih =>
    obtain ⟨hl, hk⟩ := h
    simp [drawScoreColumns, ih]

/-- Every derived row of the pipeline comes from buildRegion applied to the
drawn score columns. -/
lemma mem_runPipeline (gen : ℕ → ℕ → ℚ) (regions : List Region) (s : RngState)
    (o : RegionOutput) (ho : o ∈ (runPipeline gen regions s).1) :
    ∃ r i, o = buildRegion r
      (drawScoreColumns gen regions.length HAZARDS (np_random_seed 42 s)).1 i := by
  simp only [runPipeline] at ho
  obtain ⟨p, _hp, hpe⟩ := List.mem_map.mp ho
  exact ⟨p.2, p.1, hpe.symm⟩

/-- C1: for every score s in [0,1), each classifier returns the label whose
index equals the number of its cut points that are ≤ s, so a score equal to
a cut point falls in the higher bucket; in particular 0 gets the first
stoplight label, 0.25 the second, and 0.999999 the last. -/
theorem C1_classify_index_is_threshold_count (s : ℚ) (h0 : 0 ≤ s) (h1 : s < 1) :
    OVERALL_LEVELS_ORDER.get? (OVERALL_THRESHOLDS.countP (fun t => decide (t ≤ s)))
      = some (overall_score_to_level s)
    ∧ HAZARD_LEVELS_ORDER.get? (HAZARD_THRESHOLDS.countP (fun t => decide (t ≤ s)))
      = some (hazard_score_to_level s)
    ∧ overall_score_to_level 0 = "Very Low (White)"
    ∧ overall_score_to_level (1/4) = "Low (Green)"
    ∧ overall_score_to_level (999999/1000000) = "High (Red)" := by
  refine ⟨?_, ?_, by norm_num [overall_score_to_level], by norm_num [overall_score_to_level],
    by norm_num [overall_score_to_level]⟩
  · rcases lt_or_le s (1/4) with hA | hA
    · have hc : OVERALL_THRESHOLDS.countP (fun t => decide (t ≤ s)) = 0 := by
        simp only [OVERALL_THRESHOLDS, List.countP_cons, List.countP_nil, decide_eq_true_eq]
        rw [if_neg (not_le.mpr hA), if_neg (not_le.mpr (show s < 1/2 by linarith)),
          if_neg (not_le.mpr (show s < 3/4 by linarith))]
      have hl : overall_score_to_level s = "Very Low (White)" := by
        unfold overall_score_to_level
        rw [if_pos hA]
      rw [hc, hl]
      rfl
    · rcases lt_or_le s (1/2) with hB | hB
      · have hc : OVERALL_THRESHOLDS.countP (fun t => decide (t ≤ s)) = 1 := by
          simp only [OVERALL_THRESHOLDS, List.countP_cons, List.countP_nil, decide_eq_true_eq]
          rw [if_pos hA, if_neg (not_le.mpr hB),
            if_neg (not_le.mpr (show s < 3/4 by linarith))]
        have hl : overall_score_to_level s = "Low (Green)" := by
          unfold overall_score_to_level
          rw [if_neg (not_lt.mpr hA), if_pos hB]
        rw [hc, hl]
        rfl
      · rcases lt_or_le s (3/4) with hC | hC
        · have hc : OVERALL_THRESHOLDS.countP (fun t => decide (t ≤ s)) = 2 := by
            simp only [OVERALL_THRESHOLDS, List.countP_cons, List.countP_nil, decide_eq_true_eq]
            rw [if_pos hA, if_pos hB, if_neg (not_le.mpr hC)]
          have hl : overall_score_to_level s = "Elevated (Yellow)" := by
            unfold overall_score_to_level
            rw [if_neg (not_lt.mpr hA), if_neg (not_lt.mpr hB), if_pos hC]
          rw [hc, hl]
          rfl
        · have hc : OVERALL_THRESHOLDS.countP (fun t => decide (t ≤ s)) = 3 := by
            simp only [OVERALL_THRESHOLDS, List.countP_cons, List.countP_nil, decide_eq_true_eq]
            rw [if_pos hA, if_pos hB, if_pos hC]
          have hl : overall_score_to_level s = "High (Red)" := by
            unfold overall_score_to_level
            rw [if_neg (not_lt.mpr hA), if_neg (not_lt.mpr hB), if_neg (not_lt.mpr hC)]
          rw [hc, hl]
          rfl
  · rcases lt_or_le s (1/3) with hA | hA
    · have hc : HAZARD_THRESHOLDS.countP (fun t => decide (t ≤ s)) = 0 := by
        simp only [HAZARD_THRESHOLDS, List.countP_cons, List.countP_nil, decide_eq_true_eq]
        rw [if_neg (not_le.mpr hA), if_neg (not_le.mpr (show s < 2/3 by linarith))]
      have hl : hazard_score_to_level s = "Low" := by
        unfold hazard_score_to_level
        rw [if_pos hA]
      rw [hc, hl]
      rfl
    · rcases lt_or_le s (2/3) with hB | hB
      · have hc : HAZARD_THRESHOLDS.countP (fun t => decide (t ≤ s)) = 1 := by
          simp only [HAZARD_THRESHOLDS, List.countP_cons, List.countP_nil, decide_eq_true_eq]
          rw [if_pos hA, if_neg (not_le.mpr hB)]
        have hl : hazard_score_to_level s = "Medium" := by
          unfold hazard_score_to_level
          rw [if_neg (not_lt.mpr hA), if_pos hB]
        rw [hc, hl]
        rfl
      · have hc : HAZARD_THRESHOLDS.countP (fun t => decide (t ≤ s)) = 2 := by
          simp only [HAZARD_THRESHOLDS, List.countP_cons, List.countP_nil, decide_eq_true_eq]
          rw [if_pos hA, if_pos hB]
        have hl : hazard_score_to_level s = "High" := by
          unfold hazard_score_to_level
          rw [if_neg (not_lt.mpr hA), if_neg (not_lt.mpr hB)]
        rw [hc, hl]
        rfl

/-- Witness for C1 at the boundary score 0.25. -/
theorem C1_witness :
    (0 : ℚ) ≤ 1/4 ∧ (1/4 : ℚ) < 1
    ∧ OVERALL_LEVELS_ORDER.get? (OVERALL_THRESHOLDS.countP (fun t => decide (t ≤ (1/4 : ℚ))))
        = some (overall_score_to_level (1/4)) :=
  ⟨by norm_num, by norm_num,
    (C1_classify_index_is_threshold_count (1/4) (by norm_num) (by norm_num)).1⟩

/-- C10: both classifiers are total over all scores: every negative score
gets the lowest label, every score at or above the top cut point the
highest label, and every score some configured label, with no error
path. -/
theorem C10_classifiers_total :
    (∀ s : ℚ, s < 0 →
      overall_score_to_level s = "Very Low (White)" ∧ hazard_score_to_level s = "Low")
    ∧ (∀ s : ℚ, 3/4 ≤ s → overall_score_to_level s = "High (Red)")
    ∧ (∀ s : ℚ, 2/3 ≤ s → hazard_score_to_level s = "High")
    ∧ (∀ s : ℚ, overall_score_to_level s ∈ OVERALL_LEVELS_ORDER
        ∧ hazard_score_to_level s ∈ HAZARD_LEVELS_ORDER) := by
  refine ⟨fun s hs => ⟨?_, ?_⟩, fun s hs => ?_, fun s hs => ?_,
    fun s => ⟨overall_level_mem s, hazard_level_mem s⟩⟩
  · unfold overall_score_to_level
    rw [if_pos (show s < 1/4 by linarith)]
  · unfold hazard_score_to_level
    rw [if_pos (show s < 1/3 by linarith)]
  · unfold overall_score_to_level
    rw [if_neg (not_lt.mpr (show (1:ℚ)/4 ≤ s by linarith)),
      if_neg (not_lt.mpr (show (1:ℚ)/2 ≤ s by linarith)),
      if_neg (not_lt.mpr hs)]
  · unfold hazard_score_to_level
    rw [if_neg (not_lt.mpr (show (1:ℚ)/3 ≤ s by linarith)),
      if_neg (not_lt.mpr hs)]

/-- Witness for C10 at the out-of-range scores -1 and 1. -/
theorem C10_witness :
    (overall_score_to_level (-1) = "Very Low (White)" ∧ hazard_score_to_level (-1) = "Low")
    ∧ overall_score_to_level 1 = "High (Red)"
    ∧ hazard_score_to_level 1 = "High" :=
  ⟨C10_classifiers_total.1 (-1) (by norm_num),
   C10_classifiers_total.2.1 1 (by norm_num),
   C10_classifiers_total.2.2.1 1 (by norm_num)⟩

/-- C5 counterexample: the out-of-range score -1/2 is not rejected with an
error; it is silently assigned the lowest stoplight label, and the
out-of-range score 3/2 the highest 3-level label. -/
theorem C5_counterexample :
    overall_score_to_level (-1/2) = "Very Low (White)"
    ∧ overall_score_to_level (-1/2) ∈ OVERALL_LEVELS_ORDER
    ∧ hazard_score_to_level (3/2) = "High"
    ∧ hazard_score_to_level (3/2) ∈ HAZARD_LEVELS_ORDER :=
  ⟨by norm_num [overall_score_to_level], overall_level_mem (-1/2),
   by norm_num [hazard_score_to_level], hazard_level_mem (3/2)⟩

/-- C5 amended: a score outside [0,1) is never rejected; both classifiers
silently assign it one of their configured labels. -/
theorem C5_out_of_range_silently_bucketed (s : ℚ) (_h : ¬ (0 ≤ s ∧ s < 1)) :
    overall_score_to_level s ∈ OVERALL_LEVELS_ORDER
    ∧ hazard_score_to_level s ∈ HAZARD_LEVELS_ORDER :=
  ⟨overall_level_mem s, hazard_level_mem s⟩

/-- Witness for the amended C5 at the out-of-range score 2. -/
theorem C5_witness :
    ¬ ((0 : ℚ) ≤ 2 ∧ (2 : ℚ) < 1)
    ∧ (overall_score_to_level 2 ∈ OVERALL_LEVELS_ORDER
       ∧ hazard_score_to_level 2 ∈ HAZARD_LEVELS_ORDER) :=
  ⟨by norm_num, C5_out_of_range_silently_bucketed 2 (by norm_num)⟩

/-- C6 counterexample: the row mean of an empty score sequence is NaN
(modelled as none), not an error and not a numeric default. -/
theorem C6_counterexample : seriesMean [] = none := rfl

/-- C6 amended: aggregating an empty score sequence yields NaN (none)
rather than an error or a numeric default, while any non-empty sequence
yields its arithmetic mean. -/
theorem C6_empty_aggregation_yields_nan (xs : List ℚ) (h : xs ≠ []) :
    seriesMean [] = none ∧ seriesMean xs = some (xs.sum / xs.length) := by
  refine ⟨rfl, ?_⟩
  unfold seriesMean
  rw [if_neg (by simpa using h)]

/-- Witness for the amended C6 on a two-element sequence. -/
theorem C6_witness :
    ([(1 : ℚ)/2, 1] ≠ [])
    ∧ (seriesMean [] = none
       ∧ seriesMean [(1 : ℚ)/2, 1]
          = some (([(1 : ℚ)/2, 1].sum) / ([(1 : ℚ)/2, 1].length))) :=
  ⟨by simp, C6_empty_aggregation_yields_nan [(1 : ℚ)/2, 1] (by simp)⟩

/-- C9: the pipeline is a deterministic function of the generator, the
seed it sets, and the region set: whatever global RNG state is left over
from a previous invocation, re-running produces identical derived rows,
because np.random.seed(42) discards the prior state. -/
theorem C9_pipeline_deterministic (gen : ℕ → ℕ → ℚ) (regions : List Region)
    (s1 s2 : RngState) :
    (runPipeline gen regions s1).1 = (runPipeline gen regions s2).1 := rfl

/-- C4: projection handles each geometry kind as specified: a polygon
yields exactly its exterior ring (holes dropped, vertex order and closure
preserved), a multi-polygon one exterior ring per part, and points and
lines the empty ring list; no region is dropped from the derived table. -/
theorem C4_projection_cases :
    (∀ (e : List (ℚ × ℚ)) (ints : List (List (ℚ × ℚ))),
      geometry_to_coordinates (Geometry.polygon e ints) = [e])
    ∧ (∀ ps, geometry_to_coordinates (Geometry.multiPolygon ps)
        = ps.map (fun poly => poly.1))
    ∧ (∀ p, geometry_to_coordinates (Geometry.point p) = [])
    ∧ (∀ pts, geometry_to_coordinates (Geometry.lineString pts) = [])
    ∧ geometry_to_coordinates (Geometry.polygon [(0, 0), (1, 0), (1, 1), (0, 0)] [])
        = [[(0, 0), (1, 0), (1, 1), (0, 0)]]
    ∧ (∀ (gen : ℕ → ℕ → ℚ) (regions : List Region) (s : RngState),
        ((runPipeline gen regions s).1).length = regions.length) := by
  refine ⟨fun e ints => rfl, fun ps => rfl, fun p => rfl, fun pts => rfl, rfl,
    fun gen regions s => ?_⟩
  simp [runPipeline]

/-- C7 counterexample: on a concrete quadrilateral region the anchor
computed by the code (mean of geometric centroids) differs from the anchor
the spec describes (mean of vertex-mean centroids), whether or not the
closing vertex is counted. -/
theorem C7_counterexample :
    center_lon [demoRing] = some (12/5)
    ∧ center_lat [demoRing] = some (7/5)
    ∧ spec_center_lon [demoRing] = some (8/5)
    ∧ spec_center_lat [demoRing] = some 1
    ∧ center_lon [demoRing] ≠ spec_center_lon [demoRing]
    ∧ center_lat [demoRing] ≠ spec_center_lat [demoRing]
    ∧ spec_center_lon [demoRing.dropLast] = some 2
    ∧ center_lon [demoRing] ≠ spec_center_lon [demoRing.dropLast] := by
  refine ⟨?_, ?_, ?_, ?_, ?_, ?_, ?_, ?_⟩ <;>
    norm_num [center_lon, center_lat, spec_center_lon, spec_center_lat, demoRing,
      polygonCentroid, spec_vertex_mean_centroid, ringEdges, ringArea2, seriesMean,
      List.zip, List.zipWith, List.dropLast]

/-- C7 amended: the view anchor for a non-empty region set is the
unweighted arithmetic mean of the per-region centroid coordinates, where
each centroid is the geometric (area-weighted) centroid of the region
polygon. -/
theorem C7_anchor_is_mean_of_area_centroids (rows : List (List (ℚ × ℚ)))
    (h : rows ≠ []) :
    center_lon rows = some ((rows.map (fun r => (polygonCentroid r).1)).sum / rows.length)
    ∧ center_lat rows = some ((rows.map (fun r => (polygonCentroid r).2)).sum / rows.length) := by
  unfold center_lon center_lat seriesMean
  rw [if_neg (by simpa using h), if_neg (by simpa using h)]
  simp

/-- Witness for the amended C7 on the concrete quadrilateral region. -/
theorem C7_witness :
    ([demoRing] ≠ ([] : List (List (ℚ × ℚ))))
    ∧ (center_lon [demoRing]
        = some (([demoRing].map (fun r => (polygonCentroid r).1)).sum / ([demoRing] : List _).length)
       ∧ center_lat [demoRing]
        = some (([demoRing].map (fun r => (polygonCentroid r).2)).sum / ([demoRing] : List _).length)) :=
  ⟨by simp, C7_anchor_is_mean_of_area_centroids [demoRing] (by simp)⟩

/-- C8: for every multiset of level assignments and every fixed label
order, the level-distribution summary outputs exactly one count per label
in that order, a never-occurring label being reported as 0; in particular
the assignments Low, Low, High under order Low, Medium, High yield counts
2, 0, 1. -/
theorem C8_distribution_counts (xs order : List String) :
    plot_level_counts xs order = order.map (fun l => xs.count l)
    ∧ plot_level_counts ["Low", "Low", "High"] ["Low", "Medium", "High"] = [2, 0, 1] := by
  constructor
  · unfold plot_level_counts reindex_fillna0
    rw [funext (fun l => lookup_value_counts xs l)]
  · rfl

/-- C3: in the pipeline every region's overall score is the row mean of its
per-dimension scores; moreover the mean of N identical scores is that score
and the mean of 0 and 1 is one half. -/
theorem C3_overall_is_mean (gen : ℕ → ℕ → ℚ) (regions : List Region) (s : RngState)
    (o : RegionOutput) (ho : o ∈ (runPipeline gen regions s).1) :
    some o.overall_score = seriesMean (o.hazard_scores.map (fun p => p.2))
    ∧ (∀ (N : ℕ) (q : ℚ), 0 < N → seriesMean (List.replicate N q) = some q)
    ∧ seriesMean [(0 : ℚ), 1] = some (1/2) := by
  refine ⟨?_, ?_, by norm_num [seriesMean]⟩
  · obtain ⟨r, i, rfl⟩ := mem_runPipeline gen regions s o ho
    have hlen :
        ((drawScoreColumns gen regions.length HAZARDS (np_random_seed 42 s)).1).length
          = 6 := by
      rw [drawScoreColumns_length]
      rfl
    have hne :
        (buildRegion r (drawScoreColumns gen regions.length HAZARDS
            (np_random_seed 42 s)).1 i).hazard_scores.map (fun p => p.2) ≠ [] := by
      intro hc
      have hc2 := congrArg List.length hc
      simp only [buildRegion, List.length_map, List.length_nil] at hc2
      rw [hlen] at hc2
      exact absurd hc2 (by norm_num)
    rw [seriesMean_ne_nil _ hne]
    rfl
  · intro N q hN
    have hne2 : List.replicate N q ≠ [] :=
      List.ne_nil_of_length_pos (by simpa using hN)
    rw [seriesMean_ne_nil _ hne2]
    congr 1
    rw [List.sum_replicate, List.length_replicate, nsmul_eq_mul]
    exact mul_div_cancel_left₀ q (Nat.cast_ne_zero.mpr (Nat.pos_iff_ne_zero.mp hN))

/-- Witness for C3 on a concrete one-region pipeline run. -/
theorem C3_witness :
    demoOutput ∈ (runPipeline genZero [demoRegion] ⟨0, 0⟩).1
    ∧ (some demoOutput.overall_score = seriesMean (demoOutput.hazard_scores.map (fun p => p.2))
       ∧ (∀ (N : ℕ) (q : ℚ), 0 < N → seriesMean (List.replicate N q) = some q)
       ∧ seriesMean [(0 : ℚ), 1] = some (1/2)) := by
  have hmem : demoOutput ∈ (runPipeline genZero [demoRegion] ⟨0, 0⟩).1 := by
    rw [show (runPipeline genZero [demoRegion] (⟨0, 0⟩ : RngState)).1 = [demoOutput] from rfl]
    exact List.mem_singleton_self _
  exact ⟨hmem, C3_overall_is_mean genZero [demoRegion] ⟨0, 0⟩ demoOutput hmem⟩

/-- C2: every derived row classifies its overall score with the 4-level
stoplight configuration and its per-dimension scores with the 3-level
scale, with the stoplight labels mapped to white, green, yellow and red;
the 4-level versus 3-level asymmetry is preserved. -/
theorem C2_overall_uses_stoplight_scale (gen : ℕ → ℕ → ℚ) (regions : List Region)
    (s : RngState) (o : RegionOutput) (ho : o ∈ (runPipeline gen regions s).1) :
    o.overall_level = overall_score_to_level o.overall_score
    ∧ o.overall_level ∈ OVERALL_LEVELS_ORDER
    ∧ OVERALL_LEVELS_ORDER.length = 4
    ∧ (∀ p ∈ o.hazard_levels, p.2 ∈ HAZARD_LEVELS_ORDER)
    ∧ HAZARD_LEVELS_ORDER.length = 3
    ∧ o.overall_color = OVERALL_COLOR_MAP.lookup o.overall_level
    ∧ OVERALL_COLOR_MAP.lookup "Very Low (White)" = some [255, 255, 255]
    ∧ OVERALL_COLOR_MAP.lookup "Low (Green)" = some [0, 128, 0]
    ∧ OVERALL_COLOR_MAP.lookup "Elevated (Yellow)" = some [255, 255, 0]
    ∧ OVERALL_COLOR_MAP.lookup "High (Red)" = some [255, 0, 0] := by
  obtain ⟨r, i, rfl⟩ := mem_runPipeline gen regions s o ho
  refine ⟨rfl, overall_level_mem _, rfl, ?_, rfl, rfl, rfl, rfl, rfl, rfl⟩
  intro p hp
  have hp2 : p ∈ (((drawScoreColumns gen regions.length HAZARDS
      (np_random_seed 42 s)).1.map (fun c => (c.1, c.2.getD i 0))).map
        (fun q => (q.1, hazard_score_to_level q.2))) := hp
  obtain ⟨q, _hq, rfl⟩ := List.mem_map.mp hp2
  exact hazard_level_mem q.2

/-- Witness for C2 on a concrete one-region pipeline run. -/
theorem C2_witness :
    demoOutput ∈ (runPipeline genZero [demoRegion] ⟨0, 0⟩).1
    ∧ (demoOutput.overall_level = overall_score_to_level demoOutput.overall_score
       ∧ demoOutput.overall_level ∈ OVERALL_LEVELS_ORDER
       ∧ OVERALL_LEVELS_ORDER.length = 4
       ∧ (∀ p ∈ demoOutput.hazard_levels, p.2 ∈ HAZARD_LEVELS_ORDER)
       ∧ HAZARD_LEVELS_ORDER.length = 3
       ∧ demoOutput.overall_color = OVERALL_COLOR_MAP.lookup demoOutput.overall_level
       ∧ OVERALL_COLOR_MAP.lookup "Very Low (White)" = some [255, 255, 255]
       ∧ OVERALL_COLOR_MAP.lookup "Low (Green)" = some [0, 128, 0]
       ∧ OVERALL_COLOR_MAP.lookup "Elevated (Yellow)" = some [255, 255, 0]
       ∧ OVERALL_COLOR_MAP.lookup "High (Red)" = some [255, 0, 0]) := by
  have hmem : demoOutput ∈ (runPipeline genZero [demoRegion] ⟨0, 0⟩).1 := by
    rw [show (runPipeline genZero [demoRegion] (⟨0, 0⟩ : RngState)).1 = [demoOutput] from rfl]
    exact List.mem_singleton_self _
  exact ⟨hmem, C2_overall_uses_stoplight_scale genZero [demoRegion] ⟨0, 0⟩ demoOutput hmem⟩

end StopLight
